import Mathlib

/-!
Shallow embedding of the Random Roll Flow Launcher plugin (`main.py`).

The plugin's query handler, roll generators, settings lookups and usage
formatter are translated into executable Lean definitions.  Python runtime
behaviours the code relies on are modelled explicitly:

* `str.split()` (split on runs of whitespace, dropping empty pieces),
* `str.strip()`,
* `int(x)` on strings (optional surrounding whitespace, optional sign,
  decimal digits with single underscores allowed between digits) and on
  integers (identity),
* `random.randint` / `random.choice`, modelled as an explicit `Rng`
  record of draw outcomes supplied per invocation,
* dictionary `get` with default values,
* an exception that escapes a function is modelled with `Except String`;
  exceptions the code catches locally are resolved inside the
  definitions exactly where the `try`/`except` blocks sit.
-/

namespace RandomRoll

/-- Python `str.split()` helper: scans the character list, accumulating the
current token (reversed) in `acc`; whitespace runs close the token. -/
def splitWsAux : List Char → List Char → List String
  | [], acc => if acc = [] then [] else [String.mk acc.reverse]
  | c :: cs, acc =>
    if c.isWhitespace then
      if acc = [] then splitWsAux cs []
      else String.mk acc.reverse :: splitWsAux cs []
    else splitWsAux cs (c :: acc)

/-- Python `str.split()` with no separator: split on runs of whitespace,
producing no empty tokens. -/
def pySplit (s : String) : List String := splitWsAux s.data []

/-- Drop leading whitespace characters from a character list. -/
def dropLeadingWs : List Char → List Char
  | [] => []
  | c :: cs => if c.isWhitespace then dropLeadingWs cs else c :: cs

/-- Python `str.strip()`: remove leading and trailing whitespace. -/
def pyStrip (s : String) : String :=
  String.mk ((dropLeadingWs ((dropLeadingWs s.data).reverse)).reverse)

/-- Numeric value of an ASCII digit character. -/
def digitVal (c : Char) : Nat := c.toNat - 48

/-- Digit-sequence part of Python `int()` string parsing, after the first
digit: digits, with a single underscore permitted between two digits
(`1_0` is accepted, `1__0`, `1_` and `_1` are not). -/
def parseDigitsAux : Nat → List Char → Option Nat
  | acc, [] => some acc
  | acc, c :: cs =>
    if c.isDigit then parseDigitsAux (10 * acc + digitVal c) cs
    else if c = '_' then
      match cs with
      | [] => none
      | c2 :: cs2 =>
        if c2.isDigit then parseDigitsAux (10 * acc + digitVal c2) cs2 else none
    else none

/-- The unsigned digit group of Python `int()`: must start with a digit. -/
def parsePyDigits : List Char → Option Nat
  | [] => none
  | c :: cs => if c.isDigit then parseDigitsAux (digitVal c) cs else none

/-- Python `int()` on a stripped character list: optional single leading
sign, then a digit group. -/
def pyIntChars : List Char → Option Int
  | [] => none
  | c :: cs =>
    if c = '+' then (parsePyDigits cs).map Int.ofNat
    else if c = '-' then (parsePyDigits cs).map (fun n => -(Int.ofNat n))
    else (parsePyDigits (c :: cs)).map Int.ofNat

/-- Python `int()` applied to a string: surrounding whitespace is ignored. -/
def pyIntOfString (s : String) : Option Int := pyIntChars (pyStrip s).data

/-- A settings value as delivered in the JSON settings mapping: the plugin
only ever meets strings and numbers there. -/
inductive SettingVal where
  | str (s : String)
  | int (i : Int)
deriving DecidableEq, Repr

/-- The settings dictionary: association list keyed by setting name. -/
abbrev Settings := List (String × SettingVal)

/-- Python `dict.get(key)`: first binding for the key, if any. -/
def Settings.get (settings : Settings) (key : String) : Option SettingVal :=
  match settings.find? (fun p => p.1 == key) with
  | some p => some p.2
  | none => none

/-- Python `dict.get(key, default)`. -/
def Settings.getD (settings : Settings) (key : String) (d : SettingVal) : SettingVal :=
  (Settings.get settings key).getD d

/-- Python `int(x)` on a settings value: identity on ints, string parsing
on strings (`ValueError`/`TypeError` become `none`; the only call sites
catch both). -/
def pyInt : SettingVal → Option Int
  | .int i => some i
  | .str s => pyIntOfString s

/-- Python `str(x)` rendering of a settings value, as used when a value is
interpolated into result text. -/
def pyStr : SettingVal → String
  | .str s => s
  | .int i => toString i

/-- Outcomes of the random draws `random.choice([True, False])`,
`random.choice(labels)` and `random.randint(a, b)` made during one
invocation.  Each invocation performs at most one draw; `randint` is a
function of the bounds so one record covers every range the handler may
reach. -/
structure Rng where
  randint : Int → Int → Int
  choiceBool : Bool
  choiceIdx : Nat

/-- The `JsonRPCAction` payload attached to actionable results. -/
structure JsonRPCAction where
  method : String
  parameters : List String
deriving DecidableEq, Repr

/-- One entry of the result list returned to Flow Launcher.  The optional
`JsonRPCAction` field is `jsonRPCAction` here. -/
structure ResultItem where
  Title : String
  SubTitle : String
  IcoPath : String
  jsonRPCAction : Option JsonRPCAction
deriving DecidableEq, Repr

/-- A single-quote character, used in the click-to-roll prompt text. -/
def sq : String := String.singleton (Char.ofNat 39)

/-- The four fixed usage lines of `show_usage`. -/
def usageLines : List String :=
  ["* roll: Random based on default type (yes/no, number, or custom label)",
   "* roll N: Random number 1 to N",
   "* roll A B: Random number A to B",
   "* roll X Y Z...: Random choice from custom labels"]

/-- `show_usage`: the fixed usage card, with an optional error message
prefixed to the subtitle, separated by a blank line. -/
def show_usage (errorMsg : Option String) : List ResultItem :=
  let subtitle :=
    match errorMsg with
    | some msg => msg ++ "\n\n" ++ String.intercalate "\n" usageLines
    | none => String.intercalate "\n" usageLines
  [{ Title := "Random Roll Usage", SubTitle := subtitle, IcoPath := "icon.png",
     jsonRPCAction := none }]

/-- `check_roll_mode`: true exactly when the `Roll Mode` setting (default
`"Instant"`) equals the string `"Instant"`. -/
def check_roll_mode (settings : Settings) : Bool :=
  Settings.getD settings "Roll Mode" (.str "Instant") == SettingVal.str "Instant"

/-- `roll_yes_no`: random yes/no answer, or a click-to-roll prompt. -/
def roll_yes_no (settings : Settings) (rng : Rng) : List ResultItem :=
  let yes_label := pyStr (Settings.getD settings "yes_label" (.str "Yes"))
  let no_label := pyStr (Settings.getD settings "no_label" (.str "No"))
  if check_roll_mode settings then
    let title := if rng.choiceBool then yes_label else no_label
    [{ Title := title, SubTitle := "Random yes/no answer", IcoPath := "icon.png",
       jsonRPCAction := some { method := "copy_to_clipboard", parameters := [title] } }]
  else
    [{ Title := "Roll Yes/No",
       SubTitle := "Press Enter to randomly choose between " ++ sq ++ yes_label ++ sq
         ++ " and " ++ sq ++ no_label ++ sq,
       IcoPath := "icon.png", jsonRPCAction := none }]

/-- Error message used when no custom labels are configured. -/
def noLabelsMsg : String :=
  "No custom labels configured. Please set custom labels in settings."

/-- `roll_custom_label`: draw from the whitespace-separated
`custom_labels` setting.  A non-string, non-falsy value makes the Python
code call `.strip()` on it and raise `AttributeError`, which escapes the
function; that is the `Except.error` case. -/
def roll_custom_label (settings : Settings) (rng : Rng) :
    Except String (List ResultItem) :=
  match Settings.getD settings "custom_labels" (.str "") with
  | .str custom_labels_str =>
    if custom_labels_str = "" ∨ pyStrip custom_labels_str = "" then
      .ok (show_usage (some noLabelsMsg))
    else
      let labels := pySplit (pyStrip custom_labels_str)
      if labels = [] then .ok (show_usage (some noLabelsMsg))
      else if check_roll_mode settings then
        let title := labels.getD rng.choiceIdx ""
        .ok [{ Title := title,
               SubTitle := "Random choice from: " ++ String.intercalate ", " labels,
               IcoPath := "icon.png",
               jsonRPCAction := some { method := "copy_to_clipboard",
                                       parameters := [title] } }]
      else
        .ok [{ Title := "Roll Custom Label",
               SubTitle := "Press Enter to randomly choose from: "
                 ++ String.intercalate ", " labels,
               IcoPath := "icon.png", jsonRPCAction := none }]
  | .int i =>
    if i = 0 then .ok (show_usage (some noLabelsMsg))
    else .error "AttributeError: int object has no attribute strip"

/-- `roll_custom_label_from_args`: draw from an explicit label list. -/
def roll_custom_label_from_args (labels : List String) (settings : Settings)
    (rng : Rng) : List ResultItem :=
  if labels = [] then show_usage (some "No labels provided.")
  else if check_roll_mode settings then
    let title := labels.getD rng.choiceIdx ""
    [{ Title := title,
       SubTitle := "Random choice from: " ++ String.intercalate ", " labels,
       IcoPath := "icon.png",
       jsonRPCAction := some { method := "copy_to_clipboard", parameters := [title] } }]
  else
    [{ Title := "Roll Custom Label",
       SubTitle := "Press Enter to randomly choose from: "
         ++ String.intercalate ", " labels,
       IcoPath := "icon.png", jsonRPCAction := none }]

/-- Message returned when the requested range exceeds the safety cap. -/
def rangeTooLargeMsg : String :=
  "Range too large. Maximum range size is 10,000,000."

/-- `roll_range`: random integer in `[min, max]` of the two bounds, with
the 10,000,000 range-size safety cap.  The `try`/`except` around the draw
can never fire in the model because `start ≤ end` always holds and the
modelled `randint` is total. -/
def roll_range (from_val to_val : Int) (settings : Settings) (rng : Rng) :
    List ResultItem :=
  let start := min from_val to_val
  let stop := max from_val to_val
  if (stop - start).natAbs > 10000000 then show_usage (some rangeTooLargeMsg)
  else if check_roll_mode settings then
    let result := rng.randint start stop
    let title := toString result
    [{ Title := title,
       SubTitle := "Random number between " ++ toString start ++ " and " ++ toString stop,
       IcoPath := "icon.png",
       jsonRPCAction := some { method := "copy_to_clipboard", parameters := [title] } }]
  else
    [{ Title := "Roll Number",
       SubTitle := "Press Enter to randomly generate a number between "
         ++ toString start ++ " and " ++ toString stop,
       IcoPath := "icon.png", jsonRPCAction := none }]

/-- The inline default-range resolution of `handle_query`'s empty-query
branch: `try: from_val = int(get("default_from", 1)); to_val =
int(get("default_to", 6)) except (ValueError, TypeError): from_val = 1;
to_val = 6`.  A failure of either conversion lands in the `except` block,
which resets both values. -/
def default_from_to (settings : Settings) : Int × Int :=
  match pyInt (Settings.getD settings "default_from" (.int 1)),
        pyInt (Settings.getD settings "default_to" (.int 6)) with
  | some f, some t => (f, t)
  | _, _ => (1, 6)

/-- `handle_query`: tokenize the query and dispatch on token count, with
integer-parse fallbacks to the custom-label generator. -/
def handle_query (settings : Settings) (query : String) (rng : Rng) :
    Except String (List ResultItem) :=
  match pySplit (pyStrip query) with
  | [] =>
    let roll_type := Settings.getD settings "Default Roll Type" (.str "Number")
    if roll_type == SettingVal.str "Yes/No" then .ok (roll_yes_no settings rng)
    else if roll_type == SettingVal.str "CustomLabel" then roll_custom_label settings rng
    else
      let ft := default_from_to settings
      .ok (roll_range ft.1 ft.2 settings rng)
  | [p0] =>
    match pyIntOfString p0 with
    | some to_val => .ok (roll_range 1 to_val settings rng)
    | none => .ok (roll_custom_label_from_args [p0] settings rng)
  | [p0, p1] =>
    match pyIntOfString p0, pyIntOfString p1 with
    | some a_val, some b_val => .ok (roll_range a_val b_val settings rng)
    | _, _ => .ok (roll_custom_label_from_args [p0, p1] settings rng)
  | parts => .ok (roll_custom_label_from_args parts settings rng)

/-- A deterministic draw record used for concrete evaluations: `randint`
returns the lower bound, the boolean draw is `true`, the list draw takes
index 0. -/
def rngLow : Rng := { randint := fun lo _ => lo, choiceBool := true, choiceIdx := 0 }

end RandomRoll

deriving instance DecidableEq for Except

set_option maxRecDepth 8000

namespace RandomRoll

/-!  Helper lemmas about the Python `int()` parser. -/

lemma underscore_not_digit : ('_' : Char).isDigit = false := by decide

lemma parseDigitsAux_isSome (cs : List Char) : ∀ acc : Nat,
    cs.all Char.isDigit = true → (parseDigitsAux acc cs).isSome = true := by
  induction cs with
  | nil => intro acc _; rfl
  | cons c cs ih =>
    intro acc h
    simp only [List.all_cons, Bool.and_eq_true] at h
    rw [parseDigitsAux.eq_def]
    simp [h.1]
    exact ih _ h.2

lemma parseDigitsAux_mem (acc : Nat) (cs : List Char)
    (h : (parseDigitsAux acc cs).isSome = true) :
    ∀ c ∈ cs, c.isDigit = true ∨ c = '_' := by
  revert h
  induction acc, cs using parseDigitsAux.induct with
  | case1 acc => intro h c hc; exact absurd hc (List.not_mem_nil c)
  | case2 acc c cs hdig ih =>
    intro h c2 hc2
    rw [parseDigitsAux.eq_def] at h
    simp [hdig] at h
    rcases List.mem_cons.mp hc2 with rfl | hmem
    · exact .inl hdig
    · exact ih h c2 hmem
  | case3 acc hnd =>
    intro h
    have hnone : parseDigitsAux acc ['_'] = none := rfl
    rw [hnone] at h
    exact absurd h (by simp)
  | case4 acc c cs hdig hnd ih =>
    intro h c2 hc2
    rw [parseDigitsAux.eq_def] at h
    simp [underscore_not_digit, hdig] at h
    rcases List.mem_cons.mp hc2 with rfl | hc2
    · exact .inr rfl
    · rcases List.mem_cons.mp hc2 with rfl | hmem
      · exact .inl hdig
      · exact ih h c2 hmem
  | case5 acc c cs hdig hnd =>
    intro h
    rw [parseDigitsAux.eq_def] at h
    simp [underscore_not_digit, hdig] at h
  | case6 acc c cs hdig hund =>
    intro h
    rw [parseDigitsAux.eq_def] at h
    simp [hdig, hund] at h

lemma parsePyDigits_isSome (cs : List Char) (hne : cs ≠ [])
    (h : cs.all Char.isDigit = true) : (parsePyDigits cs).isSome = true := by
  cases cs with
  | nil => exact absurd rfl hne
  | cons c cs =>
    simp only [List.all_cons, Bool.and_eq_true] at h
    rw [parsePyDigits.eq_def]
    simp [h.1]
    exact parseDigitsAux_isSome cs _ h.2

lemma parsePyDigits_mem (cs : List Char) (h : (parsePyDigits cs).isSome = true) :
    ∀ c ∈ cs, c.isDigit = true ∨ c = '_' := by
  cases cs with
  | nil => intro c hc; exact absurd hc (List.not_mem_nil c)
  | cons c0 cs0 =>
    intro c hc
    by_cases hd : c0.isDigit
    · rw [parsePyDigits.eq_def] at h
      simp [hd] at h
      rcases List.mem_cons.mp hc with rfl | hmem
      · exact .inl hd
      · exact parseDigitsAux_mem _ cs0 h c hmem
    · rw [parsePyDigits.eq_def] at h
      simp [hd] at h

lemma digit_ne_plus {c : Char} (h : c.isDigit = true) : ¬(c = '+') := by
  intro hc; subst hc; simp at h

lemma digit_ne_minus {c : Char} (h : c.isDigit = true) : ¬(c = '-') := by
  intro hc; subst hc; simp at h

lemma pyIntChars_isSome_digits (cs : List Char) (hne : cs ≠ [])
    (h : cs.all Char.isDigit = true) :
    (pyIntChars cs).isSome = true
    ∧ (pyIntChars ('+' :: cs)).isSome = true
    ∧ (pyIntChars ('-' :: cs)).isSome = true := by
  have hp := parsePyDigits_isSome cs hne h
  refine ⟨?_, ?_, ?_⟩
  · cases cs with
    | nil => exact absurd rfl hne
    | cons c0 cs0 =>
      have h0 : c0.isDigit = true := by
        simp only [List.all_cons, Bool.and_eq_true] at h
        exact h.1
      simp [pyIntChars, digit_ne_plus h0, digit_ne_minus h0]
      simpa [parsePyDigits] using hp
  · simp [pyIntChars]
    simpa using hp
  · simp [pyIntChars]
    simpa using hp

lemma pyIntChars_mem (cs : List Char) (h : (pyIntChars cs).isSome = true) :
    ∀ c ∈ cs, c.isDigit = true ∨ c = '+' ∨ c = '-' ∨ c = '_' := by
  cases cs with
  | nil => intro c hc; exact absurd hc (List.not_mem_nil c)
  | cons c0 cs0 =>
    intro c hc
    by_cases hplus : c0 = '+'
    · subst hplus
      simp [pyIntChars] at h
      rcases List.mem_cons.mp hc with rfl | hmem
      · exact .inr (.inl rfl)
      · rcases parsePyDigits_mem cs0 (by simpa using h) c hmem with hd | hu
        · exact .inl hd
        · exact .inr (.inr (.inr hu))
    · by_cases hminus : c0 = '-'
      · subst hminus
        simp [pyIntChars] at h
        rcases List.mem_cons.mp hc with rfl | hmem
        · exact .inr (.inr (.inl rfl))
        · rcases parsePyDigits_mem cs0 (by simpa using h) c hmem with hd | hu
          · exact .inl hd
          · exact .inr (.inr (.inr hu))
      · simp [pyIntChars, hplus, hminus] at h
        rcases parsePyDigits_mem (c0 :: cs0) (by simpa using h) c hc with hd | hu
        · exact .inl hd
        · exact .inr (.inr (.inr hu))

/-!  Helper lemmas about the result-item invariants shared by the action
claims. -/

/-- Invariant of a single result entry: an attached action implies Instant
mode, and any attached action is the copy-to-clipboard of the entry title. -/
def ItemOk (settings : Settings) (e : ResultItem) : Prop :=
  (e.jsonRPCAction.isSome = true → check_roll_mode settings = true)
  ∧ ∀ a, e.jsonRPCAction = some a →
      a.method = "copy_to_clipboard" ∧ a.parameters = [e.Title]

lemma show_usage_item (msg : Option String) (e : ResultItem)
    (he : e ∈ show_usage msg) : e.jsonRPCAction = none := by
  simp [show_usage] at he
  rw [he]

lemma show_usage_item_ok (settings : Settings) (msg : Option String) (e : ResultItem)
    (he : e ∈ show_usage msg) : ItemOk settings e := by
  have h := show_usage_item msg e he
  exact ⟨by simp [h], by simp [h]⟩

lemma roll_yes_no_ok (settings : Settings) (rng : Rng) :
    ∀ e ∈ roll_yes_no settings rng, ItemOk settings e := by
  intro e he
  unfold roll_yes_no at he
  by_cases hm : check_roll_mode settings
  · simp [hm] at he
    subst he
    exact ⟨fun _ => hm, by intro a ha; simp at ha; simp [← ha]⟩
  · simp [hm] at he
    subst he
    exact ⟨by simp, by simp⟩

lemma roll_custom_label_from_args_ok (labels : List String) (settings : Settings)
    (rng : Rng) :
    ∀ e ∈ roll_custom_label_from_args labels settings rng, ItemOk settings e := by
  intro e he
  unfold roll_custom_label_from_args at he
  by_cases hl : labels = []
  · simp only [hl, if_pos rfl] at he
    exact show_usage_item_ok settings _ e (by simpa using he)
  · rw [if_neg hl] at he
    by_cases hm : check_roll_mode settings
    · simp [hm] at he
      subst he
      exact ⟨fun _ => hm, by intro a ha; simp at ha; simp [← ha]⟩
    · simp [hm] at he
      subst he
      exact ⟨by simp, by simp⟩

lemma roll_range_ok (a b : Int) (settings : Settings) (rng : Rng) :
    ∀ e ∈ roll_range a b settings rng, ItemOk settings e := by
  intro e he
  unfold roll_range at he
  by_cases hg : (max a b - min a b).natAbs > 10000000
  · simp only [hg, if_pos] at he
    exact show_usage_item_ok settings _ e (by simpa using he)
  · rw [if_neg hg] at he
    by_cases hm : check_roll_mode settings
    · simp [hm] at he
      subst he
      exact ⟨fun _ => hm, by intro a ha; simp at ha; simp [← ha]⟩
    · simp [hm] at he
      subst he
      exact ⟨by simp, by simp⟩

lemma roll_custom_label_ok (settings : Settings) (rng : Rng) (res : List ResultItem)
    (hok : roll_custom_label settings rng = .ok res) :
    ∀ e ∈ res, ItemOk settings e := by
  intro e he
  unfold roll_custom_label at hok
  split at hok
  · rename_i s heq
    by_cases hguard : s = "" ∨ pyStrip s = ""
    · rw [if_pos hguard] at hok
      simp at hok
      subst hok
      exact show_usage_item_ok settings _ e he
    · rw [if_neg hguard] at hok
      dsimp only at hok
      by_cases hl : pySplit (pyStrip s) = []
      · rw [if_pos hl] at hok
        simp at hok
        subst hok
        exact show_usage_item_ok settings _ e he
      · rw [if_neg hl] at hok
        by_cases hm : check_roll_mode settings
        · rw [if_pos hm] at hok
          simp at hok
          subst hok
          simp at he
          subst he
          exact ⟨fun _ => hm, by intro a ha; simp at ha; simp [← ha]⟩
        · rw [if_neg hm] at hok
          simp at hok
          subst hok
          simp at he
          subst he
          exact ⟨by simp, by simp⟩
  · rename_i i heq
    by_cases hz : i = 0
    · rw [if_pos hz] at hok
      simp at hok
      subst hok
      exact show_usage_item_ok settings _ e he
    · rw [if_neg hz] at hok
      exact absurd hok (by simp)

lemma handle_query_ok (settings : Settings) (q : String) (rng : Rng)
    (res : List ResultItem) (hok : handle_query settings q rng = .ok res) :
    ∀ e ∈ res, ItemOk settings e := by
  unfold handle_query at hok
  split at hok
  · dsimp only at hok
    split at hok
    · simp at hok
      subst hok
      exact roll_yes_no_ok settings rng
    · split at hok
      · exact roll_custom_label_ok settings rng res hok
      · simp at hok
        subst hok
        exact roll_range_ok _ _ settings rng
  · split at hok
    · simp at hok
      subst hok
      exact roll_range_ok _ _ settings rng
    · simp at hok
      subst hok
      exact roll_custom_label_from_args_ok _ settings rng
  · split at hok
    · simp at hok
      subst hok
      exact roll_range_ok _ _ settings rng
    · simp at hok
      subst hok
      exact roll_custom_label_from_args_ok _ settings rng
  · simp at hok
    subst hok
    exact roll_custom_label_from_args_ok _ settings rng

/-- Single-token queries whose token fails integer parsing fall back to the
custom-label generator (lines 50-57 of `main.py`). -/
lemma handle_query_one_token (settings : Settings) (q : String) (rng : Rng)
    (t : String) (hq : pySplit (pyStrip q) = [t]) (ht : pyIntOfString t = none) :
    handle_query settings q rng = .ok (roll_custom_label_from_args [t] settings rng) := by
  unfold handle_query
  rw [hq]
  simp [ht]

/-!  Claim theorems. -/

/-- C1: For integers `a`, `b` with `|max(a,b) - min(a,b)| <= 10,000,000`,
in Instant mode `roll_range(a, b)` returns a single result entry whose
Title is the decimal string of the drawn integer, which lies in
`[min(a,b), max(a,b)]` for every valid random draw; and `roll_range(5,5)`
always yields the number 5. -/
theorem roll_range_within_bounds (a b : Int) (settings : Settings) (rng : Rng)
    (hrand : ∀ lo hi : Int, lo ≤ hi → lo ≤ rng.randint lo hi ∧ rng.randint lo hi ≤ hi)
    (hmode : check_roll_mode settings = true)
    (hsize : (max a b - min a b).natAbs ≤ 10000000) :
    (min a b ≤ rng.randint (min a b) (max a b)
      ∧ rng.randint (min a b) (max a b) ≤ max a b
      ∧ (roll_range a b settings rng).map ResultItem.Title
          = [toString (rng.randint (min a b) (max a b))])
    ∧ (roll_range 5 5 settings rng).map ResultItem.Title = ["5"] := by
  have h1 := hrand (min a b) (max a b) min_le_max
  have h55 := hrand 5 5 (le_refl 5)
  have hr5 : rng.randint 5 5 = 5 := le_antisymm h55.2 h55.1
  have hg : ¬ ((max a b - min a b).natAbs > 10000000) := Nat.not_lt.mpr hsize
  constructor
  · exact ⟨h1.1, h1.2, by simp [roll_range, hg, hmode]⟩
  · simp [roll_range, hmode, hr5]
    decide

/-- C1 witness: concrete instantiation at bounds 3 and 7 with the
lower-bound draw. -/
theorem roll_range_within_bounds_witness :
    (min (3 : Int) 7 ≤ rngLow.randint (min 3 7) (max 3 7)
      ∧ rngLow.randint (min (3 : Int) 7) (max (3 : Int) 7) ≤ max 3 7
      ∧ (roll_range 3 7 [] rngLow).map ResultItem.Title
          = [toString (rngLow.randint (min (3 : Int) 7) (max (3 : Int) 7))])
    ∧ (roll_range 5 5 [] rngLow).map ResultItem.Title = ["5"] :=
  roll_range_within_bounds 3 7 [] rngLow
    (fun lo hi h => ⟨le_refl lo, h⟩) (by decide) (by decide)

/-- C2: For integers `a`, `b` with `|max(a,b) - min(a,b)| > 10,000,000`,
`roll_range(a, b)` returns the usage outcome carrying the range-too-large
message (single entry titled "Random Roll Usage"), for every settings
mapping and draw — in particular regardless of roll mode. -/
theorem roll_range_rejects_large (a b : Int) (settings : Settings) (rng : Rng)
    (hsize : (max a b - min a b).natAbs > 10000000) :
    roll_range a b settings rng = show_usage (some rangeTooLargeMsg)
    ∧ (roll_range a b settings rng).map ResultItem.Title = ["Random Roll Usage"] := by
  constructor <;> simp [roll_range, hsize, show_usage]

/-- C2 witness: concrete instantiation at bounds 0 and 10,000,001. -/
theorem roll_range_rejects_large_witness :
    roll_range 0 10000001 [] rngLow = show_usage (some rangeTooLargeMsg)
    ∧ (roll_range 0 10000001 [] rngLow).map ResultItem.Title = ["Random Roll Usage"] :=
  roll_range_rejects_large 0 10000001 [] rngLow (by decide)

/-- C3 counterexample: the claim says integer parsing rejects any
non-digit content, but Python `int()` — and hence the code — accepts an
underscore between digits: `"1_0"` parses to 10 even though it contains a
non-digit character. -/
theorem int_parse_accepts_underscore :
    pyIntOfString "1_0" = some 10 ∧ ("1_0".data.all Char.isDigit) = false := by
  decide

/-- C3 (amended): single-token integer parsing accepts an optional leading
sign followed by digits (single underscores are additionally permitted
between digits, Python `int()` grammar); every accepted token consists
only of digits, a sign and underscores, so decimals such as `"1.5"` are
rejected; and a failed parse takes the custom-label fallback path,
returning normally. -/
theorem int_parse_sign_digits_and_fallback
    (cs cs2 : List Char) (c : Char) (settings : Settings) (rng : Rng) (q t : String)
    (hcs : cs ≠ []) (hdig : cs.all Char.isDigit = true)
    (h2 : (pyIntChars cs2).isSome = true) (hc : c ∈ cs2)
    (hq : pySplit (pyStrip q) = [t]) (ht : pyIntOfString t = none) :
    (pyIntChars cs).isSome = true
    ∧ (pyIntChars ('+' :: cs)).isSome = true
    ∧ (pyIntChars ('-' :: cs)).isSome = true
    ∧ (c.isDigit = true ∨ c = '+' ∨ c = '-' ∨ c = '_')
    ∧ pyIntOfString "1.5" = none
    ∧ handle_query settings q rng = .ok (roll_custom_label_from_args [t] settings rng) := by
  have ha := pyIntChars_isSome_digits cs hcs hdig
  exact ⟨ha.1, ha.2.1, ha.2.2, pyIntChars_mem cs2 h2 c hc, by decide,
    handle_query_one_token settings q rng t hq ht⟩

/-- C3 witness: digits list `['7']`, accepted token `"42"`, fallback query
`"abc"`. -/
theorem int_parse_sign_digits_and_fallback_witness :
    (pyIntChars ['7']).isSome = true
    ∧ (pyIntChars ('+' :: ['7'])).isSome = true
    ∧ (pyIntChars ('-' :: ['7'])).isSome = true
    ∧ (('4' : Char).isDigit = true ∨ '4' = '+' ∨ '4' = '-' ∨ '4' = '_')
    ∧ pyIntOfString "1.5" = none
    ∧ handle_query [] "abc" rngLow
        = .ok (roll_custom_label_from_args ["abc"] [] rngLow) :=
  int_parse_sign_digits_and_fallback ['7'] ['4', '2'] '4' [] rngLow "abc" "abc"
    (by decide) (by decide) (by decide) (by decide) (by decide) (by decide)

/-- C4 counterexample: with `default_from` type-mismatched (`"abc"`) and
`default_to` a valid integer (100), the resolved defaults are `(1, 6)`,
not `(1, 100)` — the valid override for the other key is NOT kept, because
the single `try` block resets both values. -/
theorem default_override_drops_valid_key :
    default_from_to [("default_from", SettingVal.str "abc"),
                     ("default_to", SettingVal.int 100)] = (1, 6)
    ∧ default_from_to [("default_from", SettingVal.str "abc"),
                       ("default_to", SettingVal.int 100)] ≠ (1, 100) := by
  decide

/-- C4 (amended): when either range-default override fails integer
conversion, the resolution substitutes the built-in defaults for BOTH
keys, yielding `(1, 6)`; it never raises (the resolution is total). -/
theorem default_override_both_fallback (settings : Settings)
    (h : pyInt (Settings.getD settings "default_from" (.int 1)) = none
       ∨ pyInt (Settings.getD settings "default_to" (.int 6)) = none) :
    default_from_to settings = (1, 6) := by
  cases hf : pyInt (Settings.getD settings "default_from" (.int 1)) with
  | none => simp [default_from_to, hf]
  | some f =>
    cases ht : pyInt (Settings.getD settings "default_to" (.int 6)) with
    | none => simp [default_from_to, hf, ht]
    | some t => simp [hf, ht] at h

/-- C4 witness: a mismatched `default_from` with a valid `default_to`. -/
theorem default_override_both_fallback_witness :
    default_from_to [("default_from", SettingVal.str "xyz"),
                     ("default_to", SettingVal.int 50)] = (1, 6) :=
  default_override_both_fallback
    [("default_from", SettingVal.str "xyz"), ("default_to", SettingVal.int 50)]
    (Or.inl (by decide))

/-- C5: a query with zero tokens dispatches on the configured default roll
type: the `Yes/No` value invokes the yes/no generator, `CustomLabel`
invokes the custom-label generator, and any other value (including the
absent/default `Number` case) invokes the range generator on the resolved
`default_from`/`default_to` bounds. -/
theorem empty_query_dispatch (settings : Settings) (q : String) (rng : Rng)
    (hq : pySplit (pyStrip q) = []) :
    handle_query settings q rng =
      (if Settings.getD settings "Default Roll Type" (.str "Number") = .str "Yes/No" then
        .ok (roll_yes_no settings rng)
      else if Settings.getD settings "Default Roll Type" (.str "Number")
          = .str "CustomLabel" then
        roll_custom_label settings rng
      else
        .ok (roll_range (default_from_to settings).1 (default_from_to settings).2
              settings rng)) := by
  unfold handle_query
  rw [hq]
  simp [beq_iff_eq]

/-- C5 witness: the empty query with empty settings. -/
theorem empty_query_dispatch_witness :
    handle_query [] "" rngLow =
      (if Settings.getD [] "Default Roll Type" (.str "Number") = .str "Yes/No" then
        .ok (roll_yes_no [] rngLow)
      else if Settings.getD [] "Default Roll Type" (.str "Number")
          = .str "CustomLabel" then
        roll_custom_label [] rngLow
      else
        .ok (roll_range (default_from_to []).1 (default_from_to []).2 [] rngLow)) :=
  empty_query_dispatch [] "" rngLow (by decide)

/-- C6: a query with exactly two tokens goes to the range generator with
bounds `(token1, token2)` as given when both tokens parse as signed
integers, and otherwise to the custom-label generator on the two-element
label list. -/
theorem two_token_dispatch (settings : Settings) (q : String) (rng : Rng)
    (t1 t2 : String) (hq : pySplit (pyStrip q) = [t1, t2]) :
    handle_query settings q rng =
      (match pyIntOfString t1, pyIntOfString t2 with
       | some a_val, some b_val => .ok (roll_range a_val b_val settings rng)
       | _, _ => .ok (roll_custom_label_from_args [t1, t2] settings rng)) := by
  unfold handle_query
  rw [hq]

/-- C6 witness: the query `"5 10"`. -/
theorem two_token_dispatch_witness :
    handle_query [] "5 10" rngLow =
      (match pyIntOfString "5", pyIntOfString "10" with
       | some a_val, some b_val => .ok (roll_range a_val b_val [] rngLow)
       | _, _ => .ok (roll_custom_label_from_args ["5", "10"] [] rngLow)) :=
  two_token_dispatch [] "5 10" rngLow "5" "10" (by decide)

/-- C7: in Instant mode, for every non-empty label list and every in-range
draw index, the custom-label generator returns one entry whose Title is a
member of exactly the input label list — both for an explicit label list
and for labels taken from the `custom_labels` setting. -/
theorem custom_label_draw_membership (labels : List String)
    (settings : Settings) (rng : Rng) (s : String)
    (hne : labels ≠ []) (hmode : check_roll_mode settings = true)
    (hidx : rng.choiceIdx < labels.length)
    (hs : Settings.get settings "custom_labels" = some (.str s))
    (hsp : pySplit (pyStrip s) ≠ [])
    (hidx2 : rng.choiceIdx < (pySplit (pyStrip s)).length) :
    ((roll_custom_label_from_args labels settings rng).map ResultItem.Title
        = [labels[rng.choiceIdx]]
      ∧ labels[rng.choiceIdx] ∈ labels)
    ∧ roll_custom_label settings rng =
        .ok [ResultItem.mk ((pySplit (pyStrip s))[rng.choiceIdx])
              ("Random choice from: " ++ String.intercalate ", " (pySplit (pyStrip s)))
              "icon.png"
              (some (JsonRPCAction.mk "copy_to_clipboard"
                [(pySplit (pyStrip s))[rng.choiceIdx]]))]
      ∧ (pySplit (pyStrip s))[rng.choiceIdx] ∈ pySplit (pyStrip s) := by
  refine ⟨⟨?_, List.getElem_mem hidx⟩, ?_, List.getElem_mem hidx2⟩
  · unfold roll_custom_label_from_args
    rw [if_neg hne, if_pos hmode]
    simp [List.getElem?_eq_getElem hidx]
  · have hs1 : s ≠ "" := by
      intro h
      subst h
      exact hsp rfl
    have hs2 : pyStrip s ≠ "" := by
      intro h
      rw [h] at hsp
      exact hsp rfl
    unfold roll_custom_label
    simp only [Settings.getD, hs, Option.getD_some]
    rw [if_neg (not_or.mpr ⟨hs1, hs2⟩)]
    rw [if_neg hsp, if_pos hmode]
    simp [List.getElem?_eq_getElem hidx2]

/-- C7 witness: explicit labels `["apple", "banana"]` and configured
labels `"x y"`, index 0. -/
theorem custom_label_draw_membership_witness :
    ((roll_custom_label_from_args ["apple", "banana"]
          [("custom_labels", SettingVal.str "x y")] rngLow).map ResultItem.Title
        = [["apple", "banana"].get ⟨0, by decide⟩]
      ∧ ["apple", "banana"].get ⟨0, by decide⟩ ∈ ["apple", "banana"])
    ∧ roll_custom_label [("custom_labels", SettingVal.str "x y")] rngLow =
        .ok [ResultItem.mk ((pySplit (pyStrip "x y")).get ⟨0, by decide⟩)
              ("Random choice from: "
                ++ String.intercalate ", " (pySplit (pyStrip "x y")))
              "icon.png"
              (some (JsonRPCAction.mk "copy_to_clipboard"
                [(pySplit (pyStrip "x y")).get ⟨0, by decide⟩]))]
      ∧ (pySplit (pyStrip "x y")).get ⟨0, by decide⟩ ∈ pySplit (pyStrip "x y") :=
  custom_label_draw_membership ["apple", "banana"]
    [("custom_labels", SettingVal.str "x y")] rngLow "x y"
    (by decide) (by decide) (by decide) (by decide) (by decide) (by decide)

/-- C8: with an empty label set — no `custom_labels` configured, or a
whitespace-only value, or an empty explicit list — the custom-label
generator returns a usage outcome (an `ok` result, never an unhandled
failure) and never draws. -/
theorem empty_labels_usage (settings : Settings) (rng : Rng) (s : String)
    (h : Settings.get settings "custom_labels" = none
       ∨ (Settings.get settings "custom_labels" = some (.str s) ∧ pyStrip s = "")) :
    roll_custom_label settings rng = .ok (show_usage (some noLabelsMsg))
    ∧ roll_custom_label_from_args [] settings rng
        = show_usage (some "No labels provided.") := by
  constructor
  · rcases h with h | ⟨h, hstrip⟩
    · simp [roll_custom_label, Settings.getD, h]
    · simp [roll_custom_label, Settings.getD, h, hstrip]
  · simp [roll_custom_label_from_args]

/-- C8 witness: empty settings (no labels configured). -/
theorem empty_labels_usage_witness :
    roll_custom_label [] rngLow = .ok (show_usage (some noLabelsMsg))
    ∧ roll_custom_label_from_args [] [] rngLow
        = show_usage (some "No labels provided.") :=
  empty_labels_usage [] rngLow "" (Or.inl (by decide))

/-- C9: an entry of a successful query response carries a `JsonRPCAction`
only when the roll mode is Instant; usage outcomes (and click-to-roll
prompts, which fall under the non-Instant case) never carry one. -/
theorem action_only_in_instant_mode (settings : Settings) (q : String) (rng : Rng)
    (res : List ResultItem) (e : ResultItem) (msg : Option String) (e2 : ResultItem)
    (hok : handle_query settings q rng = .ok res) (he : e ∈ res)
    (ha : e.jsonRPCAction.isSome = true) (hu : e2 ∈ show_usage msg) :
    check_roll_mode settings = true ∧ e2.jsonRPCAction = none :=
  ⟨(handle_query_ok settings q rng res hok e he).1 ha, show_usage_item msg e2 hu⟩

/-- C9 witness: the query `"5"` in default (Instant) settings produces an
actionable entry; the plain usage card carries no action. -/
theorem action_only_in_instant_mode_witness :
    check_roll_mode [] = true
    ∧ (ResultItem.mk "Random Roll Usage" (String.intercalate "
" usageLines)
        "icon.png" none).jsonRPCAction = none :=
  action_only_in_instant_mode [] "5" rngLow
    [ResultItem.mk "1" "Random number between 1 and 5" "icon.png"
      (some (JsonRPCAction.mk "copy_to_clipboard" ["1"]))]
    (ResultItem.mk "1" "Random number between 1 and 5" "icon.png"
      (some (JsonRPCAction.mk "copy_to_clipboard" ["1"])))
    none
    (ResultItem.mk "Random Roll Usage" (String.intercalate "
" usageLines)
      "icon.png" none)
    (by decide) (by decide) (by decide) (by decide)

/-- C10: whenever an entry of a successful query response carries a
`JsonRPCAction`, its method is `copy_to_clipboard` and its parameter list
is exactly the one-element list holding the entry's Title. -/
theorem action_copies_title (settings : Settings) (q : String) (rng : Rng)
    (res : List ResultItem) (e : ResultItem) (a : JsonRPCAction)
    (hok : handle_query settings q rng = .ok res) (he : e ∈ res)
    (ha : e.jsonRPCAction = some a) :
    a.method = "copy_to_clipboard" ∧ a.parameters = [e.Title] :=
  (handle_query_ok settings q rng res hok e he).2 a ha

/-- C10 witness: the query `"2 4"` in default settings. -/
theorem action_copies_title_witness :
    (JsonRPCAction.mk "copy_to_clipboard" ["2"]).method = "copy_to_clipboard"
    ∧ (JsonRPCAction.mk "copy_to_clipboard" ["2"]).parameters
        = [(ResultItem.mk "2" "Random number between 2 and 4" "icon.png"
            (some (JsonRPCAction.mk "copy_to_clipboard" ["2"]))).Title] :=
  action_copies_title [] "2 4" rngLow
    [ResultItem.mk "2" "Random number between 2 and 4" "icon.png"
      (some (JsonRPCAction.mk "copy_to_clipboard" ["2"]))]
    (ResultItem.mk "2" "Random number between 2 and 4" "icon.png"
      (some (JsonRPCAction.mk "copy_to_clipboard" ["2"])))
    (JsonRPCAction.mk "copy_to_clipboard" ["2"])
    (by decide) (by decide) (by decide)

end RandomRoll
